import Mathlib

/-!
Verification of the Complexity-Scripts repository.

The repository has two near-duplicate pipeline variants:
- Complexity/Complex-comp.py (single-field mode, ANALYZE_FIELD = "text",
  COMPLEXITY_THRESHOLD = 128);
- Complexity/.ipynb_checkpoints/Complex-Sharegpt-checkpoint.py (multi-turn
  "conversations" mode, COMPLEXITY_THRESHOLD = 64).

Both share an identical scorer analyze_complexity.  The spaCy annotator is an
external collaborator: we model its output (a document segmented into
sentences of tagged, dependency-labeled tokens) as the scorer's input, and
pass an arbitrary annotator function into the record-processing functions.
JSON records are modeled as association lists of string keys and JSON values,
with Python dict read/assignment semantics (the first matching key is read;
assignment replaces an existing key in place, else appends).  Python
exceptions (KeyError on missing key, TypeError on ill-typed use) are modeled
with Except.
-/

/-- One annotated token: its fine-grained POS tag (token.tag_) and its
dependency relation label (token.dep_).  The token text plays no role in the
scorer and is omitted. -/
structure Token where
  tag : String
  dep : String
deriving DecidableEq, Repr

/-- A sentence is an ordered sequence of tokens (spaCy Span). -/
abbrev Sentence := List Token

/-- MAX_PARTICIPLES = 2 (both variants). -/
def MAX_PARTICIPLES : Nat := 2

/-- MAX_NESTED_CLAUSES = 2 (both variants). -/
def MAX_NESTED_CLAUSES : Nat := 2

/-- COMPLEXITY_THRESHOLD = 128 in Complex-comp.py. -/
def COMPLEXITY_THRESHOLD : Int := 128

/-- COMPLEXITY_THRESHOLD = 64 in Complex-Sharegpt-checkpoint.py. -/
def COMPLEXITY_THRESHOLD_sharegpt : Int := 64

/-- ANALYZE_FIELD = "text" in Complex-comp.py. -/
def ANALYZE_FIELD : String := "text"

/-- The analysis dict built by analyze_complexity (both variants).  Python
integers are modeled as Int for the score (only ever incremented by positive
amounts) and Nat for the running maxima (maxima of list counts). -/
structure ComplexityAnalysis where
  has_passive_voice : Bool
  max_nested_clauses : Nat
  longest_sentence : Nat
  num_participle_phrases : Nat
  num_sentences : Nat
  is_complex : Bool
  reasons : List String
  score : Int
deriving DecidableEq, Repr

/-- token.dep_ in ["nsubjpass", "auxpass"]. -/
def passiveMarker (t : Token) : Bool :=
  t.dep == "nsubjpass" || t.dep == "auxpass"

/-- sent_participles = sum(1 for token in sent if token.tag_ in ["VBG", "VBN"]
and token.dep_ in ["ROOT", "advcl", "acl"]). -/
def sentParticiples (sent : Sentence) : Nat :=
  sent.countP fun t =>
    (t.tag == "VBG" || t.tag == "VBN") &&
    (t.dep == "ROOT" || t.dep == "advcl" || t.dep == "acl")

/-- sent_clauses = sum(1 for token in sent if token.dep_ in ["ccomp", "xcomp",
"advcl", "relcl"]). -/
def sentClauses (sent : Sentence) : Nat :=
  sent.countP fun t =>
    t.dep == "ccomp" || t.dep == "xcomp" || t.dep == "advcl" || t.dep == "relcl"

/-- The f-string "Too many participle phrases (...) in one sentence". -/
def participleReason (n : Nat) : String :=
  "Too many participle phrases (" ++ toString n ++ ") in one sentence"

/-- The f-string "Deeply nested clauses (...) in one sentence". -/
def clauseReason (n : Nat) : String :=
  "Deeply nested clauses (" ++ toString n ++ ") in one sentence"

/-- The passive-voice scan of one sentence.  The Python inner loop breaks at
the first token whose dep is a passive marker; if one exists and the flag is
not yet set, it appends the reason, sets the flag and adds 1 to the score.
Hence the net effect: change the analysis iff the sentence has a passive
marker and the flag is still unset. -/
def applyPassive (a : ComplexityAnalysis) (sent : Sentence) : ComplexityAnalysis :=
  if sent.any passiveMarker && !a.has_passive_voice then
    { a with reasons := a.reasons ++ ["Contains passive voice"],
             has_passive_voice := true,
             score := a.score + 1 }
  else a

/-- The three running maxima updates (max_nested_clauses, longest_sentence,
num_participle_phrases). -/
def applyMaxima (a : ComplexityAnalysis) (sent : Sentence) : ComplexityAnalysis :=
  { a with max_nested_clauses := max a.max_nested_clauses (sentClauses sent),
           longest_sentence := max a.longest_sentence sent.length,
           num_participle_phrases := max a.num_participle_phrases (sentParticiples sent) }

/-- if sent_participles > MAX_PARTICIPLES: append reason, score +=
(sent_participles - MAX_PARTICIPLES). -/
def applyParticiples (a : ComplexityAnalysis) (sent : Sentence) : ComplexityAnalysis :=
  if MAX_PARTICIPLES < sentParticiples sent then
    { a with reasons := a.reasons ++ [participleReason (sentParticiples sent)],
             score := a.score + ((sentParticiples sent : Int) - (MAX_PARTICIPLES : Int)) }
  else a

/-- if sent_clauses > MAX_NESTED_CLAUSES: append reason, score +=
(sent_clauses - MAX_NESTED_CLAUSES). -/
def applyClauses (a : ComplexityAnalysis) (sent : Sentence) : ComplexityAnalysis :=
  if MAX_NESTED_CLAUSES < sentClauses sent then
    { a with reasons := a.reasons ++ [clauseReason (sentClauses sent)],
             score := a.score + ((sentClauses sent : Int) - (MAX_NESTED_CLAUSES : Int)) }
  else a

/-- One iteration of the per-sentence loop body of analyze_complexity. -/
def analyzeSent (a : ComplexityAnalysis) (sent : Sentence) : ComplexityAnalysis :=
  applyClauses (applyParticiples (applyMaxima (applyPassive a sent) sent) sent) sent

/-- The initial analysis dict of analyze_complexity (num_sentences =
len(list(doc.sents))). -/
def initAnalysis (doc : List Sentence) : ComplexityAnalysis :=
  { has_passive_voice := false,
    max_nested_clauses := 0,
    longest_sentence := 0,
    num_participle_phrases := 0,
    num_sentences := doc.length,
    is_complex := false,
    reasons := [],
    score := 0 }

/-- analyze_complexity, identical in both variants, over the annotator's
segmentation of the text into sentences: the per-sentence loop followed by
the final assignment is_complex = score > 0. -/
def analyze_complexity (doc : List Sentence) : ComplexityAnalysis :=
  let a := doc.foldl analyzeSent (initAnalysis doc)
  { a with is_complex := decide (0 < a.score) }

/-- A JSON value, as produced by json.loads.  Numbers are modeled as Int:
the only numbers the pipeline itself writes are integer scores, and no claim
touches fractional numbers. -/
inductive JValue where
  | null : JValue
  | bool : Bool → JValue
  | num : Int → JValue
  | str : String → JValue
  | arr : List JValue → JValue
  | obj : List (String × JValue) → JValue
deriving Repr

/-- A JSON record (one line of the JSONL file): a Python dict, modeled as an
association list in key-insertion order. -/
abbrev Record := List (String × JValue)

/-- Python exceptions the modeled code can raise. -/
inductive PyError where
  | keyError : String → PyError
  | typeError : PyError
deriving DecidableEq, Repr

/-- Dict read obj[k]: the first binding of k (dicts have unique keys). -/
def getKey : Record → String → Option JValue
  | [], _ => none
  | (k', v) :: rest, k => if k' == k then some v else getKey rest k

/-- Dict assignment obj[k] = v: replace an existing binding in place
(preserving key order), else append. -/
def setKey : Record → String → JValue → Record
  | [], k, v => [(k, v)]
  | (k', v') :: rest, k, v =>
    if k' == k then (k, v) :: rest else (k', v') :: setKey rest k v

/-- Python truthiness of a JSON value (bool(v)). -/
def truthy : JValue → Bool
  | .null => false
  | .bool b => b
  | .num n => n != 0
  | .str s => s != ""
  | .arr xs => !xs.isEmpty
  | .obj fs => !fs.isEmpty

/-- Serialization of the analysis dict into a JSON object, with the keys in
the insertion order of analyze_complexity. -/
def analysisToJson (a : ComplexityAnalysis) : JValue :=
  .obj [("has_passive_voice", .bool a.has_passive_voice),
        ("max_nested_clauses", .num a.max_nested_clauses),
        ("longest_sentence", .num a.longest_sentence),
        ("num_participle_phrases", .num a.num_participle_phrases),
        ("num_sentences", .num a.num_sentences),
        ("is_complex", .bool a.is_complex),
        ("reasons", .arr (a.reasons.map .str)),
        ("score", .num a.score)]

/-- The stub analysis dict embedded by Complex-comp.py when ANALYZE_FIELD is
absent or falsy, with its keys in the order written in the source (note: no
num_sentences key). -/
def stubAnalysis : JValue :=
  .obj [("is_complex", .bool false),
        ("reasons", .arr [.str ("MISSING FIELD " ++ ANALYZE_FIELD)]),
        ("has_passive_voice", .bool false),
        ("max_nested_clauses", .num 0),
        ("longest_sentence", .num 0),
        ("num_participle_phrases", .num 0),
        ("score", .num 0)]

/-- Key lookup inside a JSON object value. -/
def objField (v : JValue) (k : String) : Option JValue :=
  match v with
  | .obj fs => getKey fs k
  | _ => none

/-- Whether a JSON object value has a given key. -/
def objHasKey (v : JValue) (k : String) : Bool :=
  (objField v k).isSome

/-- The enrichment block of Complex-comp.py process_line: if ANALYZE_FIELD in
obj and obj[ANALYZE_FIELD]: embed the real analysis, else embed the stub.
Yields the enriched obj together with complexity_score.  A truthy non-string
field value would be handed to the spaCy pipeline, which raises: modeled as
typeError. -/
def compAggregate (nlp : String → List Sentence) (obj : Record) :
    Except PyError (Record × Int) :=
  match getKey obj ANALYZE_FIELD with
  | some v =>
    if truthy v then
      match v with
      | .str s =>
        let a := analyze_complexity (nlp s)
        .ok (setKey obj "complexity_analysis" (analysisToJson a), a.score)
      | _ => .error .typeError
    else
      .ok (setKey obj "complexity_analysis" stubAnalysis, 0)
  | none => .ok (setKey obj "complexity_analysis" stubAnalysis, 0)

/-- process_line of Complex-comp.py (single-field mode), after json.loads and
before json.dumps: Some record to emit, none when filtered out. -/
def process_line_comp (nlp : String → List Sentence) (obj : Record)
    (filter_out_complex : Bool) : Except PyError (Option Record) :=
  match compAggregate nlp obj with
  | .error e => .error e
  | .ok (obj1, complexity_score) =>
    let obj2 := setKey obj1 "total_complexity_score" (.num complexity_score)
    let obj3 := setKey obj2 "is_complex"
      (.bool (decide (COMPLEXITY_THRESHOLD < complexity_score)))
    .ok (if !filter_out_complex || complexity_score ≤ COMPLEXITY_THRESHOLD
         then some obj3 else none)

/-- turn["from"] in ["human", "gpt"]: Python membership against two string
literals, false for any non-string value. -/
def isRecognizedRole (v : JValue) : Bool :=
  match v with
  | .str s => s == "human" || s == "gpt"
  | _ => false

/-- One iteration of the turn loop of Complex-Sharegpt-checkpoint.py: enrich
the turn in place when its role is recognized and its value truthy, and
return its score contribution.  turn["from"] on a non-dict turn raises
(typeError); a missing "from" or "value" key raises KeyError; a truthy
non-string value handed to spaCy raises (typeError). -/
def enrichTurn (nlp : String → List Sentence) (turn : JValue) :
    Except PyError (JValue × Int) :=
  match turn with
  | .obj t =>
    match getKey t "from" with
    | none => .error (.keyError "from")
    | some fv =>
      if isRecognizedRole fv then
        match getKey t "value" with
        | none => .error (.keyError "value")
        | some vv =>
          if truthy vv then
            match vv with
            | .str s =>
              let a := analyze_complexity (nlp s)
              .ok (.obj (setKey t "complexity_analysis" (analysisToJson a)), a.score)
            | _ => .error .typeError
          else .ok (turn, 0)
      else .ok (turn, 0)
  | _ => .error .typeError

/-- The turn loop: enrich every turn left to right, summing the per-turn
scores into conversation_complexity; the first exception aborts. -/
def enrichTurns (nlp : String → List Sentence) :
    List JValue → Except PyError (List JValue × Int)
  | [] => .ok ([], 0)
  | t :: ts =>
    match enrichTurn nlp t with
    | .error e => .error e
    | .ok (t', s) =>
      match enrichTurns nlp ts with
      | .error e => .error e
      | .ok (ts', total) => .ok (t' :: ts', s + total)

/-- process_line of Complex-Sharegpt-checkpoint.py (multi-turn mode).  When
"conversations" is present its turns are enriched in place and the two
record-level fields are set; iterating a non-array conversations value makes
the loop body raise on its elements (modeled as typeError).  Then: if not
filter_out_complex or not obj["is_complex"], return the record, else drop it;
the obj["is_complex"] read raises KeyError when the key is absent. -/
def process_line_sharegpt (nlp : String → List Sentence) (obj : Record)
    (filter_out_complex : Bool) : Except PyError (Option Record) :=
  let step : Except PyError Record :=
    match getKey obj "conversations" with
    | some (.arr turns) =>
      match enrichTurns nlp turns with
      | .error e => .error e
      | .ok (ts, total) =>
        let o1 := setKey obj "conversations" (.arr ts)
        let o2 := setKey o1 "total_conversation_complexity" (.num total)
        .ok (setKey o2 "is_complex"
          (.bool (decide (COMPLEXITY_THRESHOLD_sharegpt < total))))
    | some _ => .error .typeError
    | none => .ok obj
  match step with
  | .error e => .error e
  | .ok obj' =>
    if !filter_out_complex then .ok (some obj')
    else
      match getKey obj' "is_complex" with
      | none => .error (.keyError "is_complex")
      | some v => .ok (if truthy v then none else some obj')

/-- The per-sentence score contribution of the two cap checks (the participle
excess plus the clause excess); used to characterize how analyze_complexity
accumulates its score. -/
def sentenceExcess (sent : Sentence) : Int :=
  (if MAX_PARTICIPLES < sentParticiples sent
   then (sentParticiples sent : Int) - (MAX_PARTICIPLES : Int) else 0) +
  (if MAX_NESTED_CLAUSES < sentClauses sent
   then (sentClauses sent : Int) - (MAX_NESTED_CLAUSES : Int) else 0)

/-- Sample token carrying a passive-voice dependency label. -/
def passiveTok : Token := ⟨"NN", "nsubjpass"⟩

/-- Sample gerund token in ROOT position (counts as a participle phrase). -/
def participleTok : Token := ⟨"VBG", "ROOT"⟩

/-- Sample annotator that segments every text into zero sentences. -/
def nlpNone : String → List Sentence := fun _ => []

/-- Sample annotator yielding one sentence with three participle tokens
(whole-text score 1). -/
def nlpParticiples3 : String → List Sentence :=
  fun _ => [[participleTok, participleTok, participleTok]]

/-- Sample annotator yielding one sentence with 130 participle tokens
(whole-text score 128). -/
def nlpScore128 : String → List Sentence :=
  fun _ => [List.replicate 130 participleTok]

/-- Sample annotator yielding one sentence with 131 participle tokens
(whole-text score 129). -/
def nlpScore129 : String → List Sentence :=
  fun _ => [List.replicate 131 participleTok]

lemma analyzeSent_score (a : ComplexityAnalysis) (s : Sentence) :
    (analyzeSent a s).score =
      a.score + (if s.any passiveMarker && !a.has_passive_voice then 1 else 0) +
        sentenceExcess s := by
  unfold analyzeSent applyClauses applyParticiples applyMaxima applyPassive sentenceExcess
  by_cases h1 : s.any passiveMarker && !a.has_passive_voice <;>
    by_cases h2 : MAX_PARTICIPLES < sentParticiples s <;>
    by_cases h3 : MAX_NESTED_CLAUSES < sentClauses s <;>
    simp [h1, h2, h3] <;> ring

lemma analyzeSent_flag (a : ComplexityAnalysis) (s : Sentence) :
    (analyzeSent a s).has_passive_voice =
      (a.has_passive_voice || s.any passiveMarker) := by
  unfold analyzeSent applyClauses applyParticiples applyMaxima applyPassive
  by_cases h2 : MAX_PARTICIPLES < sentParticiples s <;>
    by_cases h3 : MAX_NESTED_CLAUSES < sentClauses s <;>
    cases hf : a.has_passive_voice <;> cases hs : s.any passiveMarker <;>
    simp [h2, h3, hf, hs]

lemma analyzeSent_reasons (a : ComplexityAnalysis) (s : Sentence) :
    (analyzeSent a s).reasons =
      a.reasons ++
        ((if s.any passiveMarker && !a.has_passive_voice
          then ["Contains passive voice"] else []) ++
         (if MAX_PARTICIPLES < sentParticiples s
          then [participleReason (sentParticiples s)] else []) ++
         (if MAX_NESTED_CLAUSES < sentClauses s
          then [clauseReason (sentClauses s)] else [])) := by
  unfold analyzeSent applyClauses applyParticiples applyMaxima applyPassive
  by_cases h1 : s.any passiveMarker && !a.has_passive_voice <;>
    by_cases h2 : MAX_PARTICIPLES < sentParticiples s <;>
    by_cases h3 : MAX_NESTED_CLAUSES < sentClauses s <;>
    simp [h1, h2, h3]

lemma length_participleReason (n : Nat) :
    29 ≤ (participleReason n).length := by
  have h : (participleReason n).length =
      ("Too many participle phrases (".length + (toString n).length) +
        ") in one sentence".length := by
    simp [participleReason, String.length_append]
  have h1 : ("Too many participle phrases (" : String).length = 29 := by decide
  have h2 : (") in one sentence" : String).length = 17 := by decide
  omega

lemma length_clauseReason (n : Nat) :
    23 ≤ (clauseReason n).length := by
  have h : (clauseReason n).length =
      ("Deeply nested clauses (".length + (toString n).length) +
        ") in one sentence".length := by
    simp [clauseReason, String.length_append]
  have h1 : ("Deeply nested clauses (" : String).length = 23 := by decide
  have h2 : (") in one sentence" : String).length = 17 := by decide
  omega

lemma participleReason_ne_passive (n : Nat) :
    participleReason n ≠ "Contains passive voice" := by
  intro h
  have h1 := length_participleReason n
  have h2 : ("Contains passive voice" : String).length = 22 := by decide
  rw [h] at h1
  omega

lemma clauseReason_ne_passive (n : Nat) :
    clauseReason n ≠ "Contains passive voice" := by
  intro h
  have h1 := length_clauseReason n
  have h2 : ("Contains passive voice" : String).length = 22 := by decide
  rw [h] at h1
  omega

lemma analyzeSent_count (a : ComplexityAnalysis) (s : Sentence) :
    (analyzeSent a s).reasons.count "Contains passive voice" =
      a.reasons.count "Contains passive voice" +
        (if s.any passiveMarker && !a.has_passive_voice then 1 else 0) := by
  have hp := participleReason_ne_passive (sentParticiples s)
  have hc := clauseReason_ne_passive (sentClauses s)
  rw [analyzeSent_reasons]
  by_cases h1 : s.any passiveMarker && !a.has_passive_voice <;>
    by_cases h2 : MAX_PARTICIPLES < sentParticiples s <;>
    by_cases h3 : MAX_NESTED_CLAUSES < sentClauses s <;>
    simp [h1, h2, h3, List.count_append, List.count_cons, List.count_nil,
      beq_iff_eq, hp, hc]

lemma foldl_analyzeSent_flag (l : List Sentence) (a : ComplexityAnalysis) :
    (l.foldl analyzeSent a).has_passive_voice =
      (a.has_passive_voice || l.any (fun s => s.any passiveMarker)) := by
  induction l generalizing a with
  | nil => simp
  | cons s l ih =>
    rw [List.foldl_cons, ih, analyzeSent_flag]
    cases hf : a.has_passive_voice <;> cases hs : s.any passiveMarker <;>
      simp [hf, hs]

lemma foldl_analyzeSent_score (l : List Sentence) (a : ComplexityAnalysis) :
    (l.foldl analyzeSent a).score =
      a.score +
        (if a.has_passive_voice then 0
         else if l.any (fun s => s.any passiveMarker) then 1 else 0) +
        (l.map sentenceExcess).sum := by
  induction l generalizing a with
  | nil => simp
  | cons s l ih =>
    rw [List.foldl_cons, ih, analyzeSent_score, analyzeSent_flag]
    cases hf : a.has_passive_voice <;> cases hs : s.any passiveMarker <;>
      by_cases hl : l.any (fun s => s.any passiveMarker) <;>
      simp [hf, hs, hl] <;> ring

lemma foldl_analyzeSent_count (l : List Sentence) (a : ComplexityAnalysis) :
    (l.foldl analyzeSent a).reasons.count "Contains passive voice" =
      a.reasons.count "Contains passive voice" +
        (if a.has_passive_voice then 0
         else if l.any (fun s => s.any passiveMarker) then 1 else 0) := by
  induction l generalizing a with
  | nil => simp
  | cons s l ih =>
    rw [List.foldl_cons, ih, analyzeSent_count, analyzeSent_flag]
    cases hf : a.has_passive_voice <;> cases hs : s.any passiveMarker <;>
      by_cases hl : l.any (fun s => s.any passiveMarker) <;>
      simp [hf, hs, hl]

lemma analyze_complexity_score (doc : List Sentence) :
    (analyze_complexity doc).score =
      (if doc.any (fun s => s.any passiveMarker) then 1 else 0) +
        (doc.map sentenceExcess).sum := by
  show (doc.foldl analyzeSent (initAnalysis doc)).score = _
  rw [foldl_analyzeSent_score]
  simp [initAnalysis]

lemma analyze_complexity_passive_count (doc : List Sentence) :
    (analyze_complexity doc).reasons.count "Contains passive voice" =
      (if doc.any (fun s => s.any passiveMarker) then 1 else 0) := by
  show ((doc.foldl analyzeSent (initAnalysis doc)).reasons).count _ = _
  rw [foldl_analyzeSent_count]
  simp [initAnalysis]

lemma analyze_complexity_is_complex_def (doc : List Sentence) :
    (analyze_complexity doc).is_complex =
      decide (0 < (analyze_complexity doc).score) := by
  simp [analyze_complexity]

lemma sentenceExcess_nonneg (s : Sentence) : 0 ≤ sentenceExcess s := by
  unfold sentenceExcess
  by_cases h2 : MAX_PARTICIPLES < sentParticiples s <;>
    by_cases h3 : MAX_NESTED_CLAUSES < sentClauses s <;>
    simp [h2, h3] <;> omega

lemma getKey_setKey_self (l : Record) (k : String) (v : JValue) :
    getKey (setKey l k v) k = some v := by
  induction l with
  | nil => simp [getKey, setKey]
  | cons p rest ih =>
    obtain ⟨k', v'⟩ := p
    by_cases h : k' == k
    · simp [getKey, setKey, h]
    · simp [getKey, setKey, h, ih]

lemma setKey_of_getKey_none (l : Record) (k : String) (v : JValue)
    (h : getKey l k = none) : setKey l k v = l ++ [(k, v)] := by
  induction l with
  | nil => simp [setKey]
  | cons p rest ih =>
    obtain ⟨k', v'⟩ := p
    by_cases hk : k' == k
    · simp [getKey, hk] at h
    · simp only [getKey, hk, if_false] at h
      simp [setKey, hk, ih h]

lemma getKey_append_some (l1 l2 : Record) (k : String) (v : JValue)
    (h : getKey l1 k = some v) : getKey (l1 ++ l2) k = some v := by
  induction l1 with
  | nil => simp [getKey] at h
  | cons p rest ih =>
    obtain ⟨k', v'⟩ := p
    by_cases hk : k' == k
    · simp only [getKey, hk, if_true] at h
      simp [getKey, hk, h]
    · simp only [getKey, hk, if_false] at h
      simp [getKey, hk, ih h]

lemma getKey_append_none (l1 l2 : Record) (k : String)
    (h : getKey l1 k = none) : getKey (l1 ++ l2) k = getKey l2 k := by
  induction l1 with
  | nil => simp
  | cons p rest ih =>
    obtain ⟨k', v'⟩ := p
    by_cases hk : k' == k
    · simp [getKey, hk] at h
    · simp only [getKey, hk, if_false] at h
      simp [getKey, hk, ih h]

/-- C1: for every input text (i.e. every annotator output), the analysis
returned by analyze_complexity has score >= 0, and is_complex holds iff the
score is strictly positive. -/
theorem analyze_complexity_score_nonneg_is_complex_iff (doc : List Sentence) :
    0 ≤ (analyze_complexity doc).score ∧
      ((analyze_complexity doc).is_complex = true ↔
        0 < (analyze_complexity doc).score) := by
  constructor
  · rw [analyze_complexity_score]
    have h1 : 0 ≤ ((doc.map sentenceExcess).sum : Int) := by
      apply List.sum_nonneg
      intro x hx
      obtain ⟨s, _, rfl⟩ := List.mem_map.mp hx
      exact sentenceExcess_nonneg s
    split <;> omega
  · rw [analyze_complexity_is_complex_def]
    simp

/-- C7: when the annotator yields zero sentences (as it does for empty text),
analyze_complexity returns the all-zero analysis: no sentences, score 0, no
reasons, not complex, and all three maxima 0. -/
theorem analyze_complexity_empty :
    analyze_complexity [] =
      { has_passive_voice := false,
        max_nested_clauses := 0,
        longest_sentence := 0,
        num_participle_phrases := 0,
        num_sentences := 0,
        is_complex := false,
        reasons := [],
        score := 0 } := rfl

/-- C10: the stub analysis embedded for a missing or empty designated field
has no num_sentences key, whereas the JSON object serialized from any Scorer
result always has one, so the two shapes differ. -/
theorem stub_lacks_num_sentences :
    objHasKey stubAnalysis "num_sentences" = false ∧
      ∀ doc : List Sentence,
        objHasKey (analysisToJson (analyze_complexity doc)) "num_sentences" = true := by
  exact ⟨rfl, fun doc => rfl⟩

/-- C2: whenever passive-voice markers occur in more than one sentence of the
text, the analysis still contains exactly one passive-voice reason, and the
score receives exactly one passive contribution: it equals 1 plus the sum of
the per-sentence cap excesses, which contain no passive component. -/
theorem passive_voice_scored_once (doc : List Sentence)
    (h : 1 < (doc.filter (fun s => s.any passiveMarker)).length) :
    (analyze_complexity doc).reasons.count "Contains passive voice" = 1 ∧
      (analyze_complexity doc).score = 1 + (doc.map sentenceExcess).sum := by
  have hne : doc.filter (fun s => s.any passiveMarker) ≠ [] := by
    intro he
    rw [he] at h
    simp at h
  obtain ⟨x, hx⟩ := List.exists_mem_of_ne_nil _ hne
  have hmem := List.mem_filter.mp hx
  have hany : doc.any (fun s => s.any passiveMarker) = true :=
    List.any_eq_true.mpr ⟨x, hmem.1, hmem.2⟩
  refine ⟨?_, ?_⟩
  · rw [analyze_complexity_passive_count, hany]
    simp
  · rw [analyze_complexity_score, hany]
    simp

/-- Witness for C2: a three-sentence text with passive markers in the first
and third sentences gets exactly one passive reason and score 1 + 0. -/
theorem passive_voice_scored_once_witness :
    1 < (([[passiveTok], [participleTok], [passiveTok]].filter
        (fun s => s.any passiveMarker)).length) ∧
      (analyze_complexity [[passiveTok], [participleTok], [passiveTok]]).reasons.count
          "Contains passive voice" = 1 ∧
      (analyze_complexity [[passiveTok], [participleTok], [passiveTok]]).score =
        1 + ([[passiveTok], [participleTok], [passiveTok]].map sentenceExcess).sum :=
  ⟨by decide, passive_voice_scored_once _ (by decide)⟩

lemma analyze_complexity_reasons_eq (doc : List Sentence) :
    (analyze_complexity doc).reasons =
      (doc.foldl analyzeSent (initAnalysis doc)).reasons := by
  simp [analyze_complexity]

/-- C5: for a single sentence with no passive markers and at most 2
nested-clause tokens, a qualifying-participle count of exactly 3 yields
score 1, exactly one reason, and is_complex; and in general a participle
count above the cap yields score (count - cap) with the single reason
naming the count. -/
theorem single_sentence_participle_scoring (sent : Sentence)
    (hpass : sent.any passiveMarker = false)
    (hcl : sentClauses sent ≤ MAX_NESTED_CLAUSES) :
    (sentParticiples sent = 3 →
      (analyze_complexity [sent]).score = 1 ∧
        (analyze_complexity [sent]).reasons.length = 1 ∧
        (analyze_complexity [sent]).is_complex = true) ∧
    (MAX_PARTICIPLES < sentParticiples sent →
      (analyze_complexity [sent]).score =
          (sentParticiples sent : Int) - (MAX_PARTICIPLES : Int) ∧
        (analyze_complexity [sent]).reasons =
          [participleReason (sentParticiples sent)]) := by
  have hnlt := Nat.not_lt.mpr hcl
  have hscore : (analyze_complexity [sent]).score =
      (if MAX_PARTICIPLES < sentParticiples sent
       then (sentParticiples sent : Int) - (MAX_PARTICIPLES : Int) else 0) := by
    rw [analyze_complexity_score]
    simp [hpass, sentenceExcess, hnlt]
  have hreasons : (analyze_complexity [sent]).reasons =
      (if MAX_PARTICIPLES < sentParticiples sent
       then [participleReason (sentParticiples sent)] else []) := by
    rw [analyze_complexity_reasons_eq, List.foldl_cons, List.foldl_nil,
      analyzeSent_reasons]
    simp [initAnalysis, hpass, hnlt]
  constructor
  · intro h3
    have hlt : MAX_PARTICIPLES < sentParticiples sent := by
      rw [h3]
      decide
    refine ⟨?_, ?_, ?_⟩
    · rw [hscore, if_pos hlt, h3]
      decide
    · rw [hreasons, if_pos hlt]
      rfl
    · rw [analyze_complexity_is_complex_def, hscore, if_pos hlt, h3]
      decide
  · intro hlt
    exact ⟨by rw [hscore, if_pos hlt], by rw [hreasons, if_pos hlt]⟩

/-- Witness for C5: a sentence of three gerund tokens in ROOT position, no
passive markers and no clause tokens, evaluates to score 1, one reason,
is_complex true (and the general clause at count 3). -/
theorem single_sentence_participle_scoring_witness :
    ([participleTok, participleTok, participleTok].any passiveMarker = false) ∧
      sentClauses [participleTok, participleTok, participleTok] ≤ MAX_NESTED_CLAUSES ∧
      ((sentParticiples [participleTok, participleTok, participleTok] = 3 →
        (analyze_complexity [[participleTok, participleTok, participleTok]]).score = 1 ∧
          (analyze_complexity [[participleTok, participleTok, participleTok]]).reasons.length = 1 ∧
          (analyze_complexity [[participleTok, participleTok, participleTok]]).is_complex = true) ∧
       (MAX_PARTICIPLES < sentParticiples [participleTok, participleTok, participleTok] →
        (analyze_complexity [[participleTok, participleTok, participleTok]]).score =
            (sentParticiples [participleTok, participleTok, participleTok] : Int) -
              (MAX_PARTICIPLES : Int) ∧
          (analyze_complexity [[participleTok, participleTok, participleTok]]).reasons =
            [participleReason (sentParticiples [participleTok, participleTok, participleTok])])) :=
  ⟨by decide, by decide,
    single_sentence_participle_scoring _ (by decide) (by decide)⟩

/-- C3: in single-field mode with filtering enabled, a record whose text
scores exactly 128 is still emitted while one scoring 129 is dropped: the
filter compares with strict greater-than against the 128 threshold. -/
theorem filter_threshold_strict (nlp : String → List Sentence) (obj : Record)
    (s : String) (hget : getKey obj ANALYZE_FIELD = some (JValue.str s))
    (hne : s ≠ "") :
    ((analyze_complexity (nlp s)).score = 128 →
      ∃ r, process_line_comp nlp obj true = .ok (some r)) ∧
    ((analyze_complexity (nlp s)).score = 129 →
      process_line_comp nlp obj true = .ok none) := by
  have htr : truthy (JValue.str s) = true := by simp [truthy, hne]
  have hagg : compAggregate nlp obj =
      .ok (setKey obj "complexity_analysis"
          (analysisToJson (analyze_complexity (nlp s))),
        (analyze_complexity (nlp s)).score) := by
    simp [compAggregate, hget, htr]
  constructor
  · intro h128
    unfold process_line_comp
    rw [hagg]
    norm_num [h128, COMPLEXITY_THRESHOLD]
  · intro h129
    unfold process_line_comp
    rw [hagg]
    norm_num [h129, COMPLEXITY_THRESHOLD]

/-- Witness for C3: a concrete record with field "text" and an annotator
whose parse scores 128, discharging the hypotheses of the theorem. -/
theorem filter_threshold_strict_witness :
    getKey [("text", JValue.str "a")] ANALYZE_FIELD = some (JValue.str "a") ∧
      "a" ≠ "" ∧
      (((analyze_complexity (nlpScore128 "a")).score = 128 →
          ∃ r, process_line_comp nlpScore128 [("text", JValue.str "a")] true =
            .ok (some r)) ∧
        ((analyze_complexity (nlpScore128 "a")).score = 129 →
          process_line_comp nlpScore128 [("text", JValue.str "a")] true = .ok none)) :=
  ⟨rfl, by decide, filter_threshold_strict nlpScore128 _ "a" rfl (by decide)⟩

/-- C6: in single-field mode, a record whose "text" field is absent or falsy
is enriched with the stub analysis (score 0, is_complex false, one reason
mentioning the field name), gets aggregate 0 and record-level is_complex
false, and is emitted whether or not filtering is enabled. -/
theorem missing_field_stub_emission (nlp : String → List Sentence)
    (obj : Record) (filter_out_complex : Bool)
    (h : getKey obj ANALYZE_FIELD = none ∨
         ∃ v, getKey obj ANALYZE_FIELD = some v ∧ truthy v = false) :
    process_line_comp nlp obj filter_out_complex =
        .ok (some (setKey (setKey (setKey obj "complexity_analysis" stubAnalysis)
          "total_complexity_score" (JValue.num 0)) "is_complex" (JValue.bool false))) ∧
      objField stubAnalysis "score" = some (JValue.num 0) ∧
      objField stubAnalysis "is_complex" = some (JValue.bool false) ∧
      ∃ pre post, objField stubAnalysis "reasons" =
        some (JValue.arr [JValue.str (pre ++ ANALYZE_FIELD ++ post)]) := by
  have hagg : compAggregate nlp obj =
      .ok (setKey obj "complexity_analysis" stubAnalysis, 0) := by
    rcases h with h | ⟨v, hv, htr⟩
    · simp [compAggregate, h]
    · simp [compAggregate, hv, htr]
  refine ⟨?_, rfl, rfl, "MISSING FIELD ", "", ?_⟩
  · unfold process_line_comp
    rw [hagg]
    norm_num [COMPLEXITY_THRESHOLD]
  · show some (JValue.arr [JValue.str ("MISSING FIELD " ++ ANALYZE_FIELD)]) = _
    rw [String.append_empty]

/-- Witness for C6: a record with no "text" key, processed with filtering
enabled, discharging the hypotheses of the theorem. -/
theorem missing_field_stub_emission_witness :
    (getKey [("x", JValue.num 1)] ANALYZE_FIELD = none ∨
      ∃ v, getKey [("x", JValue.num 1)] ANALYZE_FIELD = some v ∧ truthy v = false) ∧
    (process_line_comp nlpNone [("x", JValue.num 1)] true =
        .ok (some (setKey (setKey (setKey [("x", JValue.num 1)]
          "complexity_analysis" stubAnalysis)
          "total_complexity_score" (JValue.num 0)) "is_complex" (JValue.bool false))) ∧
      objField stubAnalysis "score" = some (JValue.num 0) ∧
      objField stubAnalysis "is_complex" = some (JValue.bool false) ∧
      ∃ pre post, objField stubAnalysis "reasons" =
        some (JValue.arr [JValue.str (pre ++ ANALYZE_FIELD ++ post)])) :=
  ⟨Or.inl rfl, missing_field_stub_emission nlpNone _ true (Or.inl rfl)⟩

lemma compAggregate_shape (nlp : String → List Sentence) (obj obj1 : Record)
    (sc : Int) (h : compAggregate nlp obj = .ok (obj1, sc)) :
    ∃ X, obj1 = setKey obj "complexity_analysis" X := by
  unfold compAggregate at h
  cases hg : getKey obj ANALYZE_FIELD with
  | none =>
    rw [hg] at h
    simp only [Except.ok.injEq, Prod.mk.injEq] at h
    exact ⟨stubAnalysis, h.1.symm⟩
  | some v =>
    rw [hg] at h
    by_cases htr : truthy v = true
    · simp only [htr, if_true] at h
      cases v with
      | str s =>
        simp only [Except.ok.injEq, Prod.mk.injEq] at h
        exact ⟨analysisToJson (analyze_complexity (nlp s)), h.1.symm⟩
      | null => exact Except.noConfusion h
      | bool b => exact Except.noConfusion h
      | num n => exact Except.noConfusion h
      | arr xs => exact Except.noConfusion h
      | obj fs => exact Except.noConfusion h
    · simp only [htr, if_false, Bool.false_eq_true] at h
      simp only [Except.ok.injEq, Prod.mk.injEq] at h
      exact ⟨stubAnalysis, h.1.symm⟩

/-- C8: every record emitted by single-field process_line equals the input
record extended with exactly the three analysis fields, provided the input
does not already contain those keys; in particular every input key keeps its
original value. -/
theorem single_field_frame (nlp : String → List Sentence) (obj : Record)
    (f : Bool) (r : Record)
    (h1 : getKey obj "complexity_analysis" = none)
    (h2 : getKey obj "total_complexity_score" = none)
    (h3 : getKey obj "is_complex" = none)
    (hr : process_line_comp nlp obj f = .ok (some r)) :
    ∃ a sc,
      r = obj ++ [("complexity_analysis", a),
        ("total_complexity_score", JValue.num sc),
        ("is_complex", JValue.bool (decide (COMPLEXITY_THRESHOLD < sc)))] ∧
      ∀ k v, getKey obj k = some v → getKey r k = some v := by
  unfold process_line_comp at hr
  cases hagg : compAggregate nlp obj with
  | error e =>
    rw [hagg] at hr
    exact Except.noConfusion hr
  | ok p =>
    obtain ⟨obj1, sc⟩ := p
    rw [hagg] at hr
    obtain ⟨X, hX⟩ := compAggregate_shape nlp obj obj1 sc hagg
    have e1 : obj1 = obj ++ [("complexity_analysis", X)] := by
      rw [hX]
      exact setKey_of_getKey_none obj _ _ h1
    have g2 : getKey obj1 "total_complexity_score" = none := by
      rw [e1, getKey_append_none _ _ _ h2]
      rfl
    have e2 : setKey obj1 "total_complexity_score" (JValue.num sc) =
        obj ++ [("complexity_analysis", X),
          ("total_complexity_score", JValue.num sc)] := by
      rw [setKey_of_getKey_none _ _ _ g2, e1, List.append_assoc]
      rfl
    have g3 : getKey (setKey obj1 "total_complexity_score" (JValue.num sc))
        "is_complex" = none := by
      rw [e2, getKey_append_none _ _ _ h3]
      rfl
    have e3 : setKey (setKey obj1 "total_complexity_score" (JValue.num sc))
          "is_complex" (JValue.bool (decide (COMPLEXITY_THRESHOLD < sc))) =
        obj ++ [("complexity_analysis", X),
          ("total_complexity_score", JValue.num sc),
          ("is_complex", JValue.bool (decide (COMPLEXITY_THRESHOLD < sc)))] := by
      rw [setKey_of_getKey_none _ _ _ g3, e2, List.append_assoc]
      rfl
    simp only [Except.ok.injEq] at hr
    by_cases hc : sc ≤ COMPLEXITY_THRESHOLD
    · have hr2 : some (setKey (setKey obj1 "total_complexity_score"
            (JValue.num sc)) "is_complex"
            (JValue.bool (decide (COMPLEXITY_THRESHOLD < sc)))) = some r := by
        cases f <;> simpa [hc] using hr
      have hreq : r = obj ++ [("complexity_analysis", X),
          ("total_complexity_score", JValue.num sc),
          ("is_complex", JValue.bool (decide (COMPLEXITY_THRESHOLD < sc)))] := by
        rw [← e3]
        exact (Option.some.injEq _ _ ▸ hr2).symm
      refine ⟨X, sc, hreq, ?_⟩
      intro k v hkv
      rw [hreq]
      exact getKey_append_some _ _ _ _ hkv
    · cases f with
      | false =>
        have hr2 : some (setKey (setKey obj1 "total_complexity_score"
              (JValue.num sc)) "is_complex"
              (JValue.bool (decide (COMPLEXITY_THRESHOLD < sc)))) = some r := by
          simpa using hr
        have hreq : r = obj ++ [("complexity_analysis", X),
            ("total_complexity_score", JValue.num sc),
            ("is_complex", JValue.bool (decide (COMPLEXITY_THRESHOLD < sc)))] := by
          rw [← e3]
          exact (Option.some.injEq _ _ ▸ hr2).symm
        refine ⟨X, sc, hreq, ?_⟩
        intro k v hkv
        rw [hreq]
        exact getKey_append_some _ _ _ _ hkv
      | true =>
        exfalso
        simp [hc] at hr

/-- Witness for C8: a one-key record without the three analysis keys,
processed without filtering, is extended by exactly those three fields. -/
theorem single_field_frame_witness :
    getKey [("x", JValue.num 5)] "complexity_analysis" = none ∧
      getKey [("x", JValue.num 5)] "total_complexity_score" = none ∧
      getKey [("x", JValue.num 5)] "is_complex" = none ∧
      process_line_comp nlpNone [("x", JValue.num 5)] false =
        .ok (some [("x", JValue.num 5), ("complexity_analysis", stubAnalysis),
          ("total_complexity_score", JValue.num 0),
          ("is_complex", JValue.bool false)]) ∧
      (∃ a sc,
        [("x", JValue.num 5), ("complexity_analysis", stubAnalysis),
          ("total_complexity_score", JValue.num 0),
          ("is_complex", JValue.bool false)] =
          [("x", JValue.num 5)] ++ [("complexity_analysis", a),
            ("total_complexity_score", JValue.num sc),
            ("is_complex", JValue.bool (decide (COMPLEXITY_THRESHOLD < sc)))] ∧
        ∀ k v, getKey [("x", JValue.num 5)] k = some v →
          getKey [("x", JValue.num 5), ("complexity_analysis", stubAnalysis),
            ("total_complexity_score", JValue.num 0),
            ("is_complex", JValue.bool false)] k = some v) :=
  ⟨rfl, rfl, rfl, rfl,
    single_field_frame nlpNone [("x", JValue.num 5)] false _ rfl rfl rfl rfl⟩

/-- C4: with filtering enabled, both variants emit a record exactly when the
record-level is_complex flag they computed is false: the single-field variant
(which drops on the raw aggregate exceeding 128) and the multi-turn variant
(which drops on the stored is_complex flag, computed from threshold 64). -/
theorem filter_predicates_equivalent :
    (∀ (nlp : String → List Sentence) (obj obj1 : Record) (sc : Int),
      compAggregate nlp obj = .ok (obj1, sc) →
        ((∃ r, process_line_comp nlp obj true = .ok (some r) ∧
            getKey r "is_complex" =
              some (JValue.bool (decide (COMPLEXITY_THRESHOLD < sc)))) ↔
          decide (COMPLEXITY_THRESHOLD < sc) = false)) ∧
    (∀ (nlp : String → List Sentence) (obj : Record) (turns ts : List JValue)
        (total : Int),
      getKey obj "conversations" = some (JValue.arr turns) →
      enrichTurns nlp turns = .ok (ts, total) →
        ((∃ r, process_line_sharegpt nlp obj true = .ok (some r) ∧
            getKey r "is_complex" =
              some (JValue.bool (decide (COMPLEXITY_THRESHOLD_sharegpt < total)))) ↔
          decide (COMPLEXITY_THRESHOLD_sharegpt < total) = false)) := by
  constructor
  · intro nlp obj obj1 sc hagg
    by_cases hsc : COMPLEXITY_THRESHOLD < sc
    · have hres : process_line_comp nlp obj true = .ok none := by
        unfold process_line_comp
        rw [hagg]
        simp [not_le.mpr hsc]
      constructor
      · rintro ⟨r, hr, -⟩
        rw [hres] at hr
        simp at hr
      · intro hfalse
        simp [hsc] at hfalse
    · have hres : process_line_comp nlp obj true =
          .ok (some (setKey (setKey obj1 "total_complexity_score" (JValue.num sc))
            "is_complex" (JValue.bool (decide (COMPLEXITY_THRESHOLD < sc))))) := by
        unfold process_line_comp
        rw [hagg]
        simp [not_lt.mp hsc]
      constructor
      · intro _
        simp [hsc]
      · intro _
        exact ⟨_, hres, getKey_setKey_self _ _ _⟩
  · intro nlp obj turns ts total hconv hen
    have hres : process_line_sharegpt nlp obj true =
        .ok (if decide (COMPLEXITY_THRESHOLD_sharegpt < total) = true then none
          else some (setKey (setKey (setKey obj "conversations" (JValue.arr ts))
            "total_conversation_complexity" (JValue.num total)) "is_complex"
            (JValue.bool (decide (COMPLEXITY_THRESHOLD_sharegpt < total))))) := by
      unfold process_line_sharegpt
      rw [hconv]
      simp [hen, getKey_setKey_self, truthy]
    by_cases hsc : COMPLEXITY_THRESHOLD_sharegpt < total
    · rw [if_pos (by simp [hsc])] at hres
      constructor
      · rintro ⟨r, hr, -⟩
        rw [hres] at hr
        simp at hr
      · intro hfalse
        simp [hsc] at hfalse
    · rw [if_neg (by simp [hsc])] at hres
      constructor
      · intro _
        simp [hsc]
      · intro _
        exact ⟨_, hres, getKey_setKey_self _ _ _⟩

/-- Witness for C4: both equivalences instantiated at concrete records whose
aggregate is 0 (below both thresholds). -/
theorem filter_predicates_equivalent_witness :
    (compAggregate nlpNone [("text", JValue.str "a")] =
        .ok (setKey [("text", JValue.str "a")] "complexity_analysis"
          (analysisToJson (analyze_complexity (nlpNone "a"))), 0) ∧
      ((∃ r, process_line_comp nlpNone [("text", JValue.str "a")] true =
            .ok (some r) ∧
          getKey r "is_complex" =
            some (JValue.bool (decide (COMPLEXITY_THRESHOLD < (0 : Int))))) ↔
        decide (COMPLEXITY_THRESHOLD < (0 : Int)) = false)) ∧
    (getKey [("conversations", JValue.arr [])] "conversations" =
        some (JValue.arr []) ∧
      enrichTurns nlpNone [] = .ok ([], 0) ∧
      ((∃ r, process_line_sharegpt nlpNone [("conversations", JValue.arr [])] true =
            .ok (some r) ∧
          getKey r "is_complex" =
            some (JValue.bool (decide (COMPLEXITY_THRESHOLD_sharegpt < (0 : Int))))) ↔
        decide (COMPLEXITY_THRESHOLD_sharegpt < (0 : Int)) = false)) :=
  ⟨⟨rfl, filter_predicates_equivalent.1 nlpNone [("text", JValue.str "a")] _ 0 rfl⟩,
   ⟨rfl, rfl,
    filter_predicates_equivalent.2 nlpNone [("conversations", JValue.arr [])]
      [] [] 0 rfl rfl⟩⟩

/-- Counterexample to C9 as stated: a record that lacks "conversations" but
already contains an "is_complex" key does not raise KeyError with filtering
enabled; it is returned unchanged. -/
theorem missing_conversations_keyerror_counterexample :
    getKey [("is_complex", JValue.bool false)] "conversations" = none ∧
      process_line_sharegpt nlpNone [("is_complex", JValue.bool false)] true =
        .ok (some [("is_complex", JValue.bool false)]) ∧
      process_line_sharegpt nlpNone [("is_complex", JValue.bool false)] true ≠
        .error (.keyError "is_complex") :=
  ⟨rfl, rfl, fun h => nomatch h⟩

/-- C9 (amended): in the multi-turn variant, a record lacking "conversations"
raises KeyError under filtering provided it also lacks an "is_complex" key,
and is returned unchanged (no enrichment fields added) when filtering is
disabled. -/
theorem missing_conversations_behavior (nlp : String → List Sentence)
    (obj : Record) (hc : getKey obj "conversations" = none) :
    (getKey obj "is_complex" = none →
      process_line_sharegpt nlp obj true = .error (.keyError "is_complex")) ∧
      process_line_sharegpt nlp obj false = .ok (some obj) := by
  constructor
  · intro hic
    unfold process_line_sharegpt
    rw [hc]
    simp [hic]
  · unfold process_line_sharegpt
    rw [hc]
    simp

/-- Witness for C9 (amended): a record with a single unrelated key. -/
theorem missing_conversations_behavior_witness :
    getKey [("x", JValue.num 1)] "conversations" = none ∧
      ((getKey [("x", JValue.num 1)] "is_complex" = none →
        process_line_sharegpt nlpNone [("x", JValue.num 1)] true =
          .error (.keyError "is_complex")) ∧
        process_line_sharegpt nlpNone [("x", JValue.num 1)] false =
          .ok (some [("x", JValue.num 1)])) :=
  ⟨rfl, missing_conversations_behavior nlpNone [("x", JValue.num 1)] rfl⟩
